import Mathlib

/-!
# Verification of the clogg asynchronous logger (src/clogg.go)

A shallow embedding of the canonical singleton variant in `src/clogg.go`:
the `log` record, the bounded `logChan` channel, the retry/drop enqueue
policy of `logMsg`, the `logWithLevel` error reporting, the per-level
methods, the worker loop `processLogs`, `Shutdown`, the `GetLogger`
singleton accessor with its defaulting rule, the package-level free
functions, and the attribute constructors.

The model is sequential: a producer's call runs to completion with no
concurrent consumer draining the channel, so a `select` send on the
buffered channel succeeds exactly when the buffer holds fewer elements
than its capacity and the channel is open.  The worker's drain is
modelled as the list of `LogAttrs` calls it performs, appended when
`Shutdown` waits on `done`.
-/

/-- Go `string`, kept under a separate name so the clogg attribute
constructor named `String` can shadow `String` inside its namespace. -/
abbrev GoStr := String

/-- Go `int`. -/
abbrev GoInt := Int

/-- Go `bool`. -/
abbrev GoBool := Bool

namespace Clogg

/-- Go `slog.Level` is an integer type in Go (`type Level int`). -/
abbrev Level := Int

/-- Go `slog.LevelDebug = -4`. -/
def LevelDebug : Level := -4

/-- Go `slog.LevelInfo = 0`. -/
def LevelInfo : Level := 0

/-- Go `slog.LevelWarn = 4`. -/
def LevelWarn : Level := 4

/-- Go `slog.LevelError = 8`. -/
def LevelError : Level := 8

/-- The payload of an `slog.Attr`: a typed value.  `float64` payloads are
carried by their 64-bit pattern and `time.Time` payloads by nanoseconds
since the epoch; the clogg constructors only pass these through, so the
choice of carrier is immaterial. -/
inductive Value where
  | str (v : GoStr)
  | int (v : GoInt)
  | bool (v : GoBool)
  | float64 (bits : Nat)
  | time (nanos : Int)
deriving DecidableEq, Repr

/-- Go `slog.Attr`: a key with a typed value (`clogg.Attr` is an alias for it). -/
structure Attr where
  key : GoStr
  value : Value
deriving DecidableEq, Repr

/-- The internal `log` struct of clogg: level, message and attributes of
one queued message (src/clogg.go lines 19-28). -/
structure log where
  Level : Level
  Msg : GoStr
  Attrs : List Attr
deriving DecidableEq, Repr

/-- An `slog.Handler`.  The default is `slog.NewJSONHandler(os.Stdout, nil)`;
a caller-supplied handler is opaque, identified by a tag. -/
inductive Handler where
  | jsonStdout
  | custom (id : Nat)
deriving DecidableEq, Repr

/-- One call to `l.logger.LogAttrs` on the underlying `slog.Logger`:
either made by the worker goroutine `processLogs` for a drained record,
or made synchronously from a producer thread by the retry/drop path. -/
inductive SinkCall where
  | worker (m : log)
  | sync (level : Level) (msg : GoStr) (attrs : List Attr)
deriving DecidableEq, Repr

/-- The state of one `Logger` instance: the capacity of `logChan` fixed by
`make(chan log, BufferSize)`, the messages currently buffered in `logChan`
(front = oldest), whether `logChan` has been closed, the handler behind the
underlying `slog.Logger`, and the ordered trace of every `LogAttrs` call
made on that `slog.Logger`. -/
structure Logger where
  cap : Nat
  buf : List log
  closed : Bool
  handler : Handler
  sink : List SinkCall
deriving DecidableEq, Repr

/-- Events observed by the calling thread during one `logMsg` call:
a `select` send attempt that succeeded, one that hit `default` (buffer
full), a synchronous `LogAttrs` emission, or a `time.Sleep`. -/
inductive Ev where
  | pushOk (m : log)
  | pushFail
  | emit (c : SinkCall)
  | sleep (ms : Nat)
deriving DecidableEq, Repr

/-- Whether the `select` send `l.logChan <- m` succeeds rather than taking
the `default` branch: with no concurrent receiver, a send on a buffered
channel succeeds exactly when the buffer is not full (and the channel is
open; clogg never pushes after close on the paths modelled here). -/
def tryPushOk (l : Logger) : Bool :=
  !l.closed && decide (l.buf.length < l.cap)

/-- Constant `const maxRetries = 3` in `logMsg`. -/
def maxRetries : Nat := 3

/-- The fixed delay between retries: `time.Sleep(10 * time.Millisecond)`. -/
def retryDelayMs : Nat := 10

/-- The warning emitted on a failed attempt:
`l.logger.LogAttrs(ctx, slog.LevelWarn, "retrying log message due to full
buffer", slog.Int("attempt", i+1))`, for 0-based loop index `i`. -/
def retryWarn (attempt : Int) : SinkCall :=
  SinkCall.sync LevelWarn "retrying log message due to full buffer"
    [⟨"attempt", Value.int attempt⟩]

/-- The error message of `fmt.Errorf("logging buffer channel full")`. -/
def bufferFullErr : GoStr := "logging buffer channel full"

/-- The body of `logMsg`'s retry loop, iterating over `i < maxRetries` with
`r` iterations remaining.  Returns the updated logger state, the trace of
events on the calling thread, and the returned error (`none` = `nil`). -/
def logMsgGo (m : log) (i : Nat) (r : Nat) (l : Logger) :
    Logger × List Ev × Option GoStr :=
  match r with
  | 0 => (l, [], some bufferFullErr)
  | r' + 1 =>
    if tryPushOk l then
      ({ l with buf := l.buf ++ [m] }, [Ev.pushOk m], none)
    else
      let w := retryWarn (Int.ofNat i + 1)
      let rest := logMsgGo m (i + 1) r' { l with sink := l.sink ++ [w] }
      (rest.1, Ev.pushFail :: Ev.emit w :: Ev.sleep retryDelayMs :: rest.2.1,
        rest.2.2)

/-- Model of `func (l *Logger) logMsg(ctx, level, msg, attrs...) error`
(src/clogg.go lines 134-150): try to enqueue `log{Level, Msg, Attrs}` up to
`maxRetries` times; on each full-buffer attempt emit a synchronous warning
and sleep the fixed delay; return an error iff all attempts failed. -/
def logMsg (l : Logger) (level : Level) (msg : GoStr) (attrs : List Attr) :
    Logger × List Ev × Option GoStr :=
  logMsgGo ⟨level, msg, attrs⟩ 0 maxRetries l

/-- The error report of `logWithLevel`:
`l.logger.LogAttrs(ctx, slog.LevelError, "failed to log",
slog.String("error", err.Error()))`. -/
def failedToLog (e : GoStr) : SinkCall :=
  SinkCall.sync LevelError "failed to log" [⟨"error", Value.str e⟩]

/-- Model of `func (l *Logger) logWithLevel(ctx, level, msg, attrs...)`
(src/clogg.go lines 153-159): call `logMsg`; if it returned an error, emit
a synchronous error through the sink.  The Go method returns nothing, so
the result is only the updated state and the caller-side trace. -/
def logWithLevel (l : Logger) (level : Level) (msg : GoStr)
    (attrs : List Attr) : Logger × List Ev :=
  let r := logMsg l level msg attrs
  match r.2.2 with
  | none => (r.1, r.2.1)
  | some e =>
    let c := failedToLog e
    ({ r.1 with sink := r.1.sink ++ [c] }, r.2.1 ++ [Ev.emit c])

/-- Model of `func (l *Logger) debug` (src/clogg.go lines 162-164). -/
def Logger.debug (l : Logger) (msg : GoStr) (attrs : List Attr) :
    Logger × List Ev :=
  logWithLevel l LevelDebug msg attrs

/-- Model of `func (l *Logger) info` (src/clogg.go lines 167-169). -/
def Logger.info (l : Logger) (msg : GoStr) (attrs : List Attr) :
    Logger × List Ev :=
  logWithLevel l LevelInfo msg attrs

/-- Model of `func (l *Logger) warn` (src/clogg.go lines 172-174). -/
def Logger.warn (l : Logger) (msg : GoStr) (attrs : List Attr) :
    Logger × List Ev :=
  logWithLevel l LevelWarn msg attrs

/-- Model of `func (l *Logger) error` (src/clogg.go lines 177-179). -/
def Logger.error (l : Logger) (msg : GoStr) (attrs : List Attr) :
    Logger × List Ev :=
  logWithLevel l LevelError msg attrs

/-- The `LogAttrs` calls the worker `processLogs` (src/clogg.go lines
124-131) performs when it drains the given buffered messages: one `emit`
per record, in FIFO order, each passing the record's fields unchanged. -/
def processLogs (buf : List log) : List SinkCall :=
  buf.map SinkCall.worker

/-- Model of `func (l *Logger) Shutdown()` (src/clogg.go lines 89-94).  The guard
consults the package-global `globalLogger`, not the receiver: if
`globalLogger == nil` the method returns at once; otherwise it closes the
*receiver's* `logChan` and waits on the *receiver's* `done`, i.e. the
receiver's worker drains the receiver's buffer and emits every pending
record before `Shutdown` returns. -/
def Shutdown (globalLogger : Option Logger) (l : Logger) : Logger :=
  match globalLogger with
  | none => l
  | some _ =>
    { l with closed := true, buf := [], sink := l.sink ++ processLogs l.buf }

/-- Model of `type LoggerConfig struct { BufferSize int; Handler slog.Handler }`.
A `nil` handler is `none`. -/
structure LoggerConfig where
  BufferSize : GoInt
  Handler : Option Handler
deriving DecidableEq, Repr

/-- The defaulting step inside `GetLogger`'s `once.Do` closure
(src/clogg.go lines 57-63): when `config.BufferSize == 0 || config.Handler
== nil`, the *whole* config is replaced by
`LoggerConfig{BufferSize: 100, Handler: slog.NewJSONHandler(os.Stdout, nil)}`;
otherwise the config is used as given. -/
def resolveConfig (c : LoggerConfig) : LoggerConfig :=
  if c.BufferSize = 0 ∨ c.Handler = none then ⟨100, some Handler.jsonStdout⟩
  else c

/-- The construction performed inside `once.Do` (src/clogg.go lines 56-73):
apply the defaulting rule, then `make(chan log, config.BufferSize)` and
`slog.New(config.Handler)`, spawn the worker, and store the instance.
`none` models the runtime panic of `make` on a negative capacity (a nil
handler cannot reach construction: the defaulting rule replaces it). -/
def constructLogger (c : LoggerConfig) : Option Logger :=
  let rc := resolveConfig c
  match rc.Handler with
  | none => none
  | some h =>
    if rc.BufferSize < 0 then none
    else some ⟨rc.BufferSize.toNat, [], false, h, []⟩

/-- The package-level state behind `GetLogger`: whether `once.Do` has run
its function (or has been spent by a panic inside it), and the value of
`globalLogger`. -/
structure OnceState where
  fired : Bool
  globalLogger : Option Logger
deriving DecidableEq, Repr

/-- Model of `func GetLogger(config LoggerConfig) *Logger` (src/clogg.go lines
55-76): `once.Do` runs the construction at most once process-wide; every
call returns the current `globalLogger`.  If construction panics,
`sync.Once` still counts the call as done and `globalLogger` stays `nil`
(the panic propagates; the `none` result stands for that). -/
def GetLogger (s : OnceState) (c : LoggerConfig) : OnceState × Option Logger :=
  if s.fired then (s, s.globalLogger)
  else
    match constructLogger c with
    | some l => (⟨true, some l⟩, some l)
    | none => (⟨true, none⟩, none)

/-- Model of `func Debug(ctx, msg, attrs...)` (src/clogg.go lines 96-100): a no-op
when `globalLogger == nil`, otherwise delegates to `globalLogger.debug`. -/
def Debug (g : Option Logger) (msg : GoStr) (attrs : List Attr) :
    Option Logger :=
  match g with
  | none => none
  | some l => some (Logger.debug l msg attrs).1

/-- Model of `func Info(ctx, msg, attrs...)` (src/clogg.go lines 102-106). -/
def Info (g : Option Logger) (msg : GoStr) (attrs : List Attr) :
    Option Logger :=
  match g with
  | none => none
  | some l => some (Logger.info l msg attrs).1

/-- Model of `func Warn(ctx, msg, attrs...)` (src/clogg.go lines 108-112). -/
def Warn (g : Option Logger) (msg : GoStr) (attrs : List Attr) :
    Option Logger :=
  match g with
  | none => none
  | some l => some (Logger.warn l msg attrs).1

/-- Model of `func Error(ctx, msg, attrs...)` (src/clogg.go lines 114-118). -/
def Error (g : Option Logger) (msg : GoStr) (attrs : List Attr) :
    Option Logger :=
  match g with
  | none => none
  | some l => some (Logger.error l msg attrs).1

/-- Model of `func String(key, value string) Attr` (src/clogg.go lines 185-187),
i.e. `slog.String(key, value)`. -/
def String (key : GoStr) (value : GoStr) : Attr :=
  ⟨key, Value.str value⟩

/-- Model of `func Int(key string, value int) Attr` (src/clogg.go lines 190-192),
i.e. `slog.Int(key, value)`. -/
def Int (key : GoStr) (value : GoInt) : Attr :=
  ⟨key, Value.int value⟩

/-- Model of `func Bool(key string, value bool) Attr` (src/clogg.go lines 195-197),
i.e. `slog.Bool(key, value)`. -/
def Bool (key : GoStr) (value : GoBool) : Attr :=
  ⟨key, Value.bool value⟩

/-- Model of `func Float64(key string, value float64) Attr` (src/clogg.go lines
200-202), i.e. `slog.Float64(key, value)`; the 64-bit value is passed
through untouched. -/
def Float64 (key : GoStr) (value : Nat) : Attr :=
  ⟨key, Value.float64 value⟩

/-- Model of `func Time(key string, value time.Time) Attr` (src/clogg.go lines
205-207), i.e. `slog.Time(key, value)`; the instant is passed through
untouched. -/
def Time (key : GoStr) (value : GoInt) : Attr :=
  ⟨key, Value.time value⟩

/-- Total milliseconds slept in a caller-side event trace. -/
def sleepTotal : List Ev → Nat
  | [] => 0
  | Ev.sleep n :: t => n + sleepTotal t
  | _ :: t => sleepTotal t

/-- Number of `select` send attempts (successful or not) in a trace. -/
def pushAttempts : List Ev → Nat
  | [] => 0
  | Ev.pushOk _ :: t => 1 + pushAttempts t
  | Ev.pushFail :: t => 1 + pushAttempts t
  | _ :: t => pushAttempts t

/-- A single producer calling `logMsg` once per record, in order; returns
the final logger state and whether every call returned `nil`. -/
def enqueueAll (l : Logger) : List log → Logger × GoBool
  | [] => (l, true)
  | m :: ms =>
    let r := logMsg l m.Level m.Msg m.Attrs
    let rest := enqueueAll r.1 ms
    (rest.1, decide (r.2.2 = none) && rest.2)

/-! ## Helper lemmas -/

theorem tryPushOk_setSink (l : Logger) (s : List SinkCall) :
    tryPushOk { l with sink := s } = tryPushOk l := rfl

/-- When the `select` send succeeds, `logMsg` enqueues the record on the
first attempt, emits nothing, sleeps never, and returns `nil`. -/
theorem logMsg_ok (l : Logger) (lvl : Level) (msg : GoStr)
    (attrs : List Attr) (h : tryPushOk l = true) :
    logMsg l lvl msg attrs =
      ({ l with buf := l.buf ++ [⟨lvl, msg, attrs⟩] },
       [Ev.pushOk ⟨lvl, msg, attrs⟩], none) := by
  simp [logMsg, maxRetries, logMsgGo, h]

/-- When the buffer stays full (no concurrent consumer), `logMsg` fails
all three attempts, emitting the numbered warning and sleeping 10 ms after
each, leaves the buffer untouched, and returns the buffer-full error. -/
theorem logMsg_full (l : Logger) (lvl : Level) (msg : GoStr)
    (attrs : List Attr) (h : tryPushOk l = false) :
    logMsg l lvl msg attrs =
      ({ l with sink := l.sink ++ [retryWarn 1, retryWarn 2, retryWarn 3] },
       [Ev.pushFail, Ev.emit (retryWarn 1), Ev.sleep 10,
        Ev.pushFail, Ev.emit (retryWarn 2), Ev.sleep 10,
        Ev.pushFail, Ev.emit (retryWarn 3), Ev.sleep 10],
       some bufferFullErr) := by
  have h' : ∀ s, tryPushOk { l with sink := s } = false := fun _ => h
  simp [logMsg, maxRetries, logMsgGo, h, h', retryDelayMs, List.append_assoc]

/-- Behaviour of `logWithLevel` in the success case: the record is enqueued and nothing
else happens. -/
theorem logWithLevel_ok (l : Logger) (lvl : Level) (msg : GoStr)
    (attrs : List Attr) (h : tryPushOk l = true) :
    logWithLevel l lvl msg attrs =
      ({ l with buf := l.buf ++ [⟨lvl, msg, attrs⟩] },
       [Ev.pushOk ⟨lvl, msg, attrs⟩]) := by
  simp [logWithLevel, logMsg_ok l lvl msg attrs h]

/-- Behaviour of `logWithLevel` in the always-full case: three warnings then one
"failed to log" error go synchronously to the sink; the buffer is
untouched. -/
theorem logWithLevel_full (l : Logger) (lvl : Level) (msg : GoStr)
    (attrs : List Attr) (h : tryPushOk l = false) :
    logWithLevel l lvl msg attrs =
      ({ l with sink := l.sink ++ [retryWarn 1, retryWarn 2, retryWarn 3,
          failedToLog bufferFullErr] },
       [Ev.pushFail, Ev.emit (retryWarn 1), Ev.sleep 10,
        Ev.pushFail, Ev.emit (retryWarn 2), Ev.sleep 10,
        Ev.pushFail, Ev.emit (retryWarn 3), Ev.sleep 10,
        Ev.emit (failedToLog bufferFullErr)]) := by
  simp [logWithLevel, logMsg_full l lvl msg attrs h, List.append_assoc]

/-- A single producer with room for the whole batch: every `logMsg` call
succeeds on its first attempt and the buffer ends up holding the batch in
FIFO order. -/
theorem enqueueAll_ok (ms : List log) : ∀ l : Logger, l.closed = false →
    l.buf.length + ms.length ≤ l.cap →
    enqueueAll l ms = ({ l with buf := l.buf ++ ms }, true) := by
  induction ms with
  | nil => intro l _ _; simp [enqueueAll]
  | cons m ms ih =>
    intro l h1 h2
    have hlen : l.buf.length + ms.length + 1 ≤ l.cap := by
      simpa [Nat.add_comm, Nat.add_assoc, Nat.add_left_comm] using h2
    have hp : tryPushOk l = true := by
      simp [tryPushOk, h1]
      omega
    rw [enqueueAll]
    rw [logMsg_ok l m.Level m.Msg m.Attrs hp]
    rw [ih { l with buf := l.buf ++ [m] } h1 (by simp; omega)]
    simp

end Clogg

/-! ## Claim theorems -/

/-- Claim C1: for every sequence of N records successfully enqueued by a
single producer before `Shutdown`, with queue capacity ≥ N, every `logMsg`
call returns without error, and after `Shutdown` (which closes the queue
and waits for the worker to drain) the sink has received exactly those N
records through the worker, each exactly once, in the FIFO order they were
enqueued; the drain completes as part of `Shutdown`'s wait on `done`, so
all of them are emitted before `Shutdown` returns. -/
theorem c1_fifo_exactly_once_on_shutdown (records : List Clogg.log)
    (cp : Nat) (h : records.length ≤ cp) :
    (Clogg.enqueueAll ⟨cp, [], false, Clogg.Handler.jsonStdout, []⟩
        records).2 = true ∧
    (Clogg.Shutdown
        (some (Clogg.enqueueAll ⟨cp, [], false, Clogg.Handler.jsonStdout, []⟩
            records).1)
        (Clogg.enqueueAll ⟨cp, [], false, Clogg.Handler.jsonStdout, []⟩
            records).1).sink
      = records.map Clogg.SinkCall.worker := by
  have h0 := Clogg.enqueueAll_ok records
    ⟨cp, [], false, Clogg.Handler.jsonStdout, []⟩ rfl (by simpa using h)
  rw [h0]
  exact ⟨rfl, by simp [Clogg.Shutdown, Clogg.processLogs]⟩

/-- Witness for C1 at two concrete records and capacity 2. -/
theorem c1_fifo_exactly_once_on_shutdown_witness :
    ([⟨Clogg.LevelInfo, "m1", []⟩, ⟨Clogg.LevelDebug, "m2", []⟩] :
        List Clogg.log).length ≤ 2 ∧
    ((Clogg.enqueueAll ⟨2, [], false, Clogg.Handler.jsonStdout, []⟩
        [⟨Clogg.LevelInfo, "m1", []⟩, ⟨Clogg.LevelDebug, "m2", []⟩]).2 = true ∧
     (Clogg.Shutdown
        (some (Clogg.enqueueAll ⟨2, [], false, Clogg.Handler.jsonStdout, []⟩
            [⟨Clogg.LevelInfo, "m1", []⟩, ⟨Clogg.LevelDebug, "m2", []⟩]).1)
        (Clogg.enqueueAll ⟨2, [], false, Clogg.Handler.jsonStdout, []⟩
            [⟨Clogg.LevelInfo, "m1", []⟩, ⟨Clogg.LevelDebug, "m2", []⟩]).1).sink
      = [⟨Clogg.LevelInfo, "m1", []⟩, ⟨Clogg.LevelDebug, "m2", []⟩].map
          Clogg.SinkCall.worker) :=
  ⟨by decide,
   c1_fifo_exactly_once_on_shutdown
     [⟨Clogg.LevelInfo, "m1", []⟩, ⟨Clogg.LevelDebug, "m2", []⟩] 2 (by decide)⟩

/-- Claim C7: the package-level free functions Debug/Info/Warn/Error are
no-ops while `globalLogger` is nil (nothing enqueued, nothing emitted, no
fault), and once the singleton exists they delegate to the corresponding
per-level method of that instance. -/
theorem c7_free_functions_delegate_or_noop (msg : GoStr)
    (attrs : List Clogg.Attr) (l : Clogg.Logger) :
    Clogg.Debug none msg attrs = none ∧
    Clogg.Info none msg attrs = none ∧
    Clogg.Warn none msg attrs = none ∧
    Clogg.Error none msg attrs = none ∧
    Clogg.Debug (some l) msg attrs = some (Clogg.Logger.debug l msg attrs).1 ∧
    Clogg.Info (some l) msg attrs = some (Clogg.Logger.info l msg attrs).1 ∧
    Clogg.Warn (some l) msg attrs = some (Clogg.Logger.warn l msg attrs).1 ∧
    Clogg.Error (some l) msg attrs = some (Clogg.Logger.error l msg attrs).1 :=
  ⟨rfl, rfl, rfl, rfl, rfl, rfl, rfl, rfl⟩

/-- Claim C9: the attribute constructors are pure round-trips: each yields
an attribute whose key is the given key and whose payload is the given
value unchanged, with no other effect. -/
theorem c9_attr_constructors_pure (k v : GoStr) (i : GoInt) (b : GoBool)
    (f : Nat) (t : GoInt) :
    (Clogg.String k v).key = k ∧
    (Clogg.String k v).value = Clogg.Value.str v ∧
    (Clogg.Int k i).key = k ∧
    (Clogg.Int k i).value = Clogg.Value.int i ∧
    (Clogg.Bool k b).key = k ∧
    (Clogg.Bool k b).value = Clogg.Value.bool b ∧
    (Clogg.Float64 k f).key = k ∧
    (Clogg.Float64 k f).value = Clogg.Value.float64 f ∧
    (Clogg.Time k t).key = k ∧
    (Clogg.Time k t).value = Clogg.Value.time t :=
  ⟨rfl, rfl, rfl, rfl, rfl, rfl, rfl, rfl, rfl, rfl⟩

/-- Claim C10: Shutdown's guard consults the global singleton pointer, not
its receiver: with `globalLogger` nil it returns at once, leaving the
receiver's queue open and performing no drain; with `globalLogger` set to
any instance `g` (the receiver or not), it closes the receiver's own queue
and waits for the receiver's own worker, which drains the receiver's
buffer into the sink. -/
theorem c10_shutdown_consults_global (g l : Clogg.Logger) :
    Clogg.Shutdown none l = l ∧
    (Clogg.Shutdown (some g) l).closed = true ∧
    (Clogg.Shutdown (some g) l).buf = [] ∧
    (Clogg.Shutdown (some g) l).sink = l.sink ++ Clogg.processLogs l.buf :=
  ⟨rfl, rfl, rfl, rfl⟩

/-- Counterexample to claim C2: with the buffer full for the whole call
(capacity 1, one buffered record, no concurrent drain), the caller of
`logMsg` sleeps 30 ms in total — one fixed 10 ms delay after each of the
three failed attempts, including the last one — which exceeds the claimed
bound of (maxRetries-1) * fixedDelay = 20 ms. -/
theorem c2_sleep_bound_counterexample :
    Clogg.sleepTotal (Clogg.logMsg
        ⟨1, [⟨Clogg.LevelInfo, "x", []⟩], false, Clogg.Handler.jsonStdout, []⟩
        Clogg.LevelInfo "m" []).2.1 = 30 ∧
    ¬ (Clogg.sleepTotal (Clogg.logMsg
        ⟨1, [⟨Clogg.LevelInfo, "x", []⟩], false, Clogg.Handler.jsonStdout, []⟩
        Clogg.LevelInfo "m" []).2.1
        ≤ (Clogg.maxRetries - 1) * Clogg.retryDelayMs) := by
  exact ⟨by decide, by decide⟩

/-- Claim C2 amended: each per-level call sleeps at most
maxRetries * fixedDelay = 3 × 10 ms = 30 ms in total, and when the record
is ultimately dropped (the enqueue returns an error) the caller has slept
exactly 30 ms, because the fixed delay follows every failed attempt,
including the final one. -/
theorem c2_sleep_bound_amended (l : Clogg.Logger) (lvl : Clogg.Level)
    (msg : GoStr) (attrs : List Clogg.Attr) :
    Clogg.sleepTotal (Clogg.logMsg l lvl msg attrs).2.1
        ≤ Clogg.maxRetries * Clogg.retryDelayMs ∧
    ((Clogg.logMsg l lvl msg attrs).2.2 ≠ none →
      Clogg.sleepTotal (Clogg.logMsg l lvl msg attrs).2.1
        = Clogg.maxRetries * Clogg.retryDelayMs) := by
  cases hp : Clogg.tryPushOk l with
  | true =>
    rw [Clogg.logMsg_ok l lvl msg attrs hp]
    refine ⟨by simp [Clogg.sleepTotal], fun hc => absurd rfl hc⟩
  | false =>
    rw [Clogg.logMsg_full l lvl msg attrs hp]
    exact ⟨by simp [Clogg.sleepTotal, Clogg.maxRetries, Clogg.retryDelayMs],
      fun _ => by simp [Clogg.sleepTotal, Clogg.maxRetries, Clogg.retryDelayMs]⟩

/-- Witness for the amended C2: a dropped record (full buffer of capacity
1) makes the caller sleep exactly 30 ms. -/
theorem c2_sleep_bound_amended_witness :
    (Clogg.logMsg
        ⟨1, [⟨Clogg.LevelWarn, "y", []⟩], false, Clogg.Handler.jsonStdout, []⟩
        Clogg.LevelInfo "w" []).2.2 ≠ none ∧
    Clogg.sleepTotal (Clogg.logMsg
        ⟨1, [⟨Clogg.LevelWarn, "y", []⟩], false, Clogg.Handler.jsonStdout, []⟩
        Clogg.LevelInfo "w" []).2.1
      = Clogg.maxRetries * Clogg.retryDelayMs :=
  ⟨by decide,
   (c2_sleep_bound_amended
      ⟨1, [⟨Clogg.LevelWarn, "y", []⟩], false, Clogg.Handler.jsonStdout, []⟩
      Clogg.LevelInfo "w" []).2 (by decide)⟩

/-- Claim C3: `logMsg` makes at most 3 push attempts per record, and when
the queue is full on every attempt, each failed attempt synchronously
emits through the sink (bypassing the queue: the buffer is untouched, the
warning goes straight onto the sink trace) a warning carrying the attempt
number, then sleeps the fixed 10 ms delay before the next attempt. -/
theorem c3_retry_warning_policy (l : Clogg.Logger) (lvl : Clogg.Level)
    (msg : GoStr) (attrs : List Clogg.Attr) :
    Clogg.pushAttempts (Clogg.logMsg l lvl msg attrs).2.1 ≤ 3 ∧
    (Clogg.tryPushOk l = false →
      (Clogg.logMsg l lvl msg attrs).2.1 =
        [Clogg.Ev.pushFail, Clogg.Ev.emit (Clogg.retryWarn 1),
         Clogg.Ev.sleep 10,
         Clogg.Ev.pushFail, Clogg.Ev.emit (Clogg.retryWarn 2),
         Clogg.Ev.sleep 10,
         Clogg.Ev.pushFail, Clogg.Ev.emit (Clogg.retryWarn 3),
         Clogg.Ev.sleep 10] ∧
      (Clogg.logMsg l lvl msg attrs).1.buf = l.buf ∧
      (Clogg.logMsg l lvl msg attrs).1.sink =
        l.sink ++ [Clogg.retryWarn 1, Clogg.retryWarn 2, Clogg.retryWarn 3]) := by
  cases hp : Clogg.tryPushOk l with
  | true =>
    rw [Clogg.logMsg_ok l lvl msg attrs hp]
    exact ⟨by simp [Clogg.pushAttempts], fun hc => by simp [hp] at hc⟩
  | false =>
    rw [Clogg.logMsg_full l lvl msg attrs hp]
    exact ⟨by simp [Clogg.pushAttempts], fun _ => ⟨rfl, rfl, rfl⟩⟩

/-- Witness for C3 at a concrete full logger (capacity 1, one buffered
record). -/
theorem c3_retry_warning_policy_witness :
    Clogg.tryPushOk
        ⟨1, [⟨Clogg.LevelError, "z", []⟩], false, Clogg.Handler.jsonStdout, []⟩
      = false ∧
    (Clogg.logMsg
        ⟨1, [⟨Clogg.LevelError, "z", []⟩], false, Clogg.Handler.jsonStdout, []⟩
        Clogg.LevelInfo "v" []).2.1 =
      [Clogg.Ev.pushFail, Clogg.Ev.emit (Clogg.retryWarn 1),
       Clogg.Ev.sleep 10,
       Clogg.Ev.pushFail, Clogg.Ev.emit (Clogg.retryWarn 2),
       Clogg.Ev.sleep 10,
       Clogg.Ev.pushFail, Clogg.Ev.emit (Clogg.retryWarn 3),
       Clogg.Ev.sleep 10] :=
  ⟨by decide,
   ((c3_retry_warning_policy
      ⟨1, [⟨Clogg.LevelError, "z", []⟩], false, Clogg.Handler.jsonStdout, []⟩
      Clogg.LevelInfo "v" []).2 (by decide)).1⟩

/-- Claim C4: when all 3 push attempts fail, exactly one synchronous error
("failed to log" with the buffer-full error text) is emitted through the
sink after the three warnings, the record is never enqueued (the buffer is
unchanged, so it can never reach the worker), and `logWithLevel` — whose
Go signature returns nothing — hands the caller no error value. -/
theorem c4_drop_after_exhausted_retries (l : Clogg.Logger)
    (lvl : Clogg.Level) (msg : GoStr) (attrs : List Clogg.Attr)
    (h : Clogg.tryPushOk l = false) :
    (Clogg.logWithLevel l lvl msg attrs).1.buf = l.buf ∧
    (Clogg.logWithLevel l lvl msg attrs).1.sink =
      l.sink ++ [Clogg.retryWarn 1, Clogg.retryWarn 2, Clogg.retryWarn 3,
        Clogg.failedToLog Clogg.bufferFullErr] ∧
    List.count (Clogg.failedToLog Clogg.bufferFullErr)
        (Clogg.logWithLevel l lvl msg attrs).1.sink
      = List.count (Clogg.failedToLog Clogg.bufferFullErr) l.sink + 1 := by
  rw [Clogg.logWithLevel_full l lvl msg attrs h]
  refine ⟨rfl, rfl, ?_⟩
  rw [show ({ l with sink := l.sink ++ [Clogg.retryWarn 1, Clogg.retryWarn 2,
      Clogg.retryWarn 3, Clogg.failedToLog Clogg.bufferFullErr] } :
      Clogg.Logger).sink = l.sink ++ [Clogg.retryWarn 1, Clogg.retryWarn 2,
      Clogg.retryWarn 3, Clogg.failedToLog Clogg.bufferFullErr] from rfl]
  rw [List.count_append]
  norm_num
  decide

/-- Witness for C4 at a concrete full logger (capacity 0). -/
theorem c4_drop_after_exhausted_retries_witness :
    Clogg.tryPushOk ⟨0, [], false, Clogg.Handler.jsonStdout, []⟩ = false ∧
    (Clogg.logWithLevel ⟨0, [], false, Clogg.Handler.jsonStdout, []⟩
        Clogg.LevelDebug "d" []).1.sink =
      [] ++ [Clogg.retryWarn 1, Clogg.retryWarn 2, Clogg.retryWarn 3,
        Clogg.failedToLog Clogg.bufferFullErr] :=
  ⟨by decide,
   (c4_drop_after_exhausted_retries ⟨0, [], false, Clogg.Handler.jsonStdout, []⟩
      Clogg.LevelDebug "d" [] (by decide)).2.1⟩

/-- Counterexample to claim C5: the fields do not default independently.
With BufferSize 50 and a nil Handler, the claim keeps the caller-supplied
50, but `GetLogger` replaces the whole config with the defaults, so the
channel capacity is 100; and with BufferSize -1 and a non-nil Handler no
defaulting happens at all and `make(chan log, -1)` faults construction,
contradicting "a non-positive BufferSize never faults construction". -/
theorem c5_defaulting_counterexample :
    (Clogg.constructLogger ⟨50, none⟩).map Clogg.Logger.cap = some 100 ∧
    ¬ ((Clogg.constructLogger ⟨50, none⟩).map Clogg.Logger.cap = some 50) ∧
    Clogg.constructLogger ⟨-1, some (Clogg.Handler.custom 0)⟩ = none := by
  exact ⟨by decide, by decide, by decide⟩

/-- Claim C5 amended: defaulting is joint, not per-field.  On the first
GetLogger call, whenever the given BufferSize is 0 or the given Handler is
nil, the whole configuration is replaced by the defaults (buffer size 100
and the standard-output JSON handler), discarding any caller-supplied
value in the other field; when BufferSize is positive and the Handler is
non-nil both are kept as given; and a negative BufferSize with a non-nil
Handler is not defaulted and faults construction. -/
theorem clogg_constructLogger_nilHandler (bs : GoInt) :
    Clogg.constructLogger ⟨bs, none⟩
      = some ⟨100, [], false, Clogg.Handler.jsonStdout, []⟩ := by
  simp [Clogg.constructLogger, Clogg.resolveConfig]

theorem clogg_constructLogger_someHandler (bs : GoInt) (h : Clogg.Handler) :
    Clogg.constructLogger ⟨bs, some h⟩
      = if bs = 0 then some ⟨100, [], false, Clogg.Handler.jsonStdout, []⟩
        else if bs < 0 then none
        else some ⟨bs.toNat, [], false, h, []⟩ := by
  by_cases h0 : bs = 0
  · simp [Clogg.constructLogger, Clogg.resolveConfig, h0]
  · simp [Clogg.constructLogger, Clogg.resolveConfig, h0]

theorem c5_defaulting_amended (c : Clogg.LoggerConfig) :
    ((c.BufferSize = 0 ∨ c.Handler = none) →
      Clogg.constructLogger c
        = some ⟨100, [], false, Clogg.Handler.jsonStdout, []⟩) ∧
    (∀ h : Clogg.Handler, c.Handler = some h → 0 < c.BufferSize →
      Clogg.constructLogger c
        = some ⟨c.BufferSize.toNat, [], false, h, []⟩) ∧
    (∀ h : Clogg.Handler, c.Handler = some h → c.BufferSize < 0 →
      Clogg.constructLogger c = none) := by
  obtain ⟨bs, hd⟩ := c
  refine ⟨fun hdef => ?_, fun h hh hpos => ?_, fun h hh hneg => ?_⟩
  · cases hd with
    | none => exact clogg_constructLogger_nilHandler bs
    | some h =>
      rcases hdef with h0 | hx
      · simp only at h0
        rw [clogg_constructLogger_someHandler bs h, if_pos h0]
      · simp at hx
  · simp only at hh hpos
    subst hh
    rw [clogg_constructLogger_someHandler bs h,
      if_neg (ne_of_gt hpos), if_neg (not_lt.mpr hpos.le)]
  · simp only at hh hneg
    subst hh
    rw [clogg_constructLogger_someHandler bs h,
      if_neg (ne_of_lt hneg), if_pos hneg]

/-- Witness for the amended C5 at three concrete configurations: one that
defaults, one kept as given, one that faults. -/
theorem c5_defaulting_amended_witness :
    Clogg.constructLogger ⟨0, some (Clogg.Handler.custom 3)⟩
      = some ⟨100, [], false, Clogg.Handler.jsonStdout, []⟩ ∧
    Clogg.constructLogger ⟨7, some (Clogg.Handler.custom 3)⟩
      = some ⟨(7 : GoInt).toNat, [], false, Clogg.Handler.custom 3, []⟩ ∧
    Clogg.constructLogger ⟨-2, some (Clogg.Handler.custom 3)⟩ = none :=
  ⟨(c5_defaulting_amended ⟨0, some (Clogg.Handler.custom 3)⟩).1
      (Or.inl (by decide)),
   (c5_defaulting_amended ⟨7, some (Clogg.Handler.custom 3)⟩).2.1
      (Clogg.Handler.custom 3) (by decide) (by decide),
   (c5_defaulting_amended ⟨-2, some (Clogg.Handler.custom 3)⟩).2.2
      (Clogg.Handler.custom 3) (by decide) (by decide)⟩

/-- Claim C6: once the first GetLogger call has constructed the singleton,
every later call — with any configuration, including a different one —
performs no construction, leaves the package-level state (and hence the
instance's buffer size and sink) unchanged, and returns the same
already-constructed instance. -/
theorem c6_getLogger_idempotent (c cNext : Clogg.LoggerConfig)
    (l : Clogg.Logger) (h : (Clogg.GetLogger ⟨false, none⟩ c).2 = some l) :
    Clogg.GetLogger (Clogg.GetLogger ⟨false, none⟩ c).1 cNext
      = ((Clogg.GetLogger ⟨false, none⟩ c).1, some l) := by
  cases hc : Clogg.constructLogger c with
  | none => simp [Clogg.GetLogger, hc] at h
  | some l0 =>
    have h2 : Clogg.GetLogger ⟨false, none⟩ c = (⟨true, some l0⟩, some l0) := by
      simp [Clogg.GetLogger, hc]
    rw [h2] at h ⊢
    simp only [Option.some.injEq] at h
    subst h
    simp [Clogg.GetLogger]

/-- Witness for C6: a first call with a custom configuration, then a
second call with a different configuration that receives the same
instance and leaves the state untouched. -/
theorem c6_getLogger_idempotent_witness :
    (Clogg.GetLogger ⟨false, none⟩ ⟨2, some (Clogg.Handler.custom 5)⟩).2
      = some ⟨2, [], false, Clogg.Handler.custom 5, []⟩ ∧
    Clogg.GetLogger
        (Clogg.GetLogger ⟨false, none⟩ ⟨2, some (Clogg.Handler.custom 5)⟩).1
        ⟨7, some (Clogg.Handler.custom 9)⟩
      = ((Clogg.GetLogger ⟨false, none⟩ ⟨2, some (Clogg.Handler.custom 5)⟩).1,
         some ⟨2, [], false, Clogg.Handler.custom 5, []⟩) :=
  ⟨by decide,
   c6_getLogger_idempotent ⟨2, some (Clogg.Handler.custom 5)⟩
     ⟨7, some (Clogg.Handler.custom 9)⟩
     ⟨2, [], false, Clogg.Handler.custom 5, []⟩ (by decide)⟩

/-- Claim C8: a per-level call that enqueues successfully puts onto the
queue a record carrying exactly the level of the method, the exact message
and the exact attribute list (insertion order and duplicates preserved,
since the list is stored as given), with the sink untouched by the call;
and the worker emits any enqueued record with all fields unchanged. -/
theorem c8_record_fields_preserved (l : Clogg.Logger) (msg : GoStr)
    (attrs : List Clogg.Attr) (h : Clogg.tryPushOk l = true) :
    (Clogg.Logger.debug l msg attrs).1.buf
        = l.buf ++ [⟨Clogg.LevelDebug, msg, attrs⟩] ∧
    (Clogg.Logger.info l msg attrs).1.buf
        = l.buf ++ [⟨Clogg.LevelInfo, msg, attrs⟩] ∧
    (Clogg.Logger.warn l msg attrs).1.buf
        = l.buf ++ [⟨Clogg.LevelWarn, msg, attrs⟩] ∧
    (Clogg.Logger.error l msg attrs).1.buf
        = l.buf ++ [⟨Clogg.LevelError, msg, attrs⟩] ∧
    (Clogg.Logger.debug l msg attrs).1.sink = l.sink ∧
    (∀ m : Clogg.log, Clogg.processLogs (l.buf ++ [m])
        = Clogg.processLogs l.buf ++ [Clogg.SinkCall.worker m]) := by
  refine ⟨?_, ?_, ?_, ?_, ?_, fun m => ?_⟩
  · simp only [Clogg.Logger.debug]
    rw [Clogg.logWithLevel_ok l Clogg.LevelDebug msg attrs h]
  · simp only [Clogg.Logger.info]
    rw [Clogg.logWithLevel_ok l Clogg.LevelInfo msg attrs h]
  · simp only [Clogg.Logger.warn]
    rw [Clogg.logWithLevel_ok l Clogg.LevelWarn msg attrs h]
  · simp only [Clogg.Logger.error]
    rw [Clogg.logWithLevel_ok l Clogg.LevelError msg attrs h]
  · simp only [Clogg.Logger.debug]
    rw [Clogg.logWithLevel_ok l Clogg.LevelDebug msg attrs h]
  · simp [Clogg.processLogs]

/-- Witness for C8 at an empty logger of capacity 1 and a one-attribute
message. -/
theorem c8_record_fields_preserved_witness :
    Clogg.tryPushOk ⟨1, [], false, Clogg.Handler.jsonStdout, []⟩ = true ∧
    (Clogg.Logger.debug ⟨1, [], false, Clogg.Handler.jsonStdout, []⟩ "hello"
        [⟨"k", Clogg.Value.str "v"⟩]).1.buf
      = [] ++ [⟨Clogg.LevelDebug, "hello", [⟨"k", Clogg.Value.str "v"⟩]⟩] :=
  ⟨by decide,
   (c8_record_fields_preserved ⟨1, [], false, Clogg.Handler.jsonStdout, []⟩
      "hello" [⟨"k", Clogg.Value.str "v"⟩] (by decide)).1⟩
